import Mathlib

set_option maxHeartbeats 1000000

/-
Shallow embedding of the Enterprise_businessFinder backend.

Sources embedded here:
  * src/backend/business_finder.py — the provider clients
    (GooglePlacesAPI, OpenStreetMapAPI, YelpFusionAPI), the dedup engine
    `filter_duplicate_businesses` and its helper `_business_has_more_info`;
  * src/backend/app.py — the `/api/businesses` orchestration
    (`search_businesses` route handler);
  * src/backend/services/business_service.py — `get_businesses`.

Modelling conventions:
  * A business record is the fixed 13-key dictionary every provider
    constructs.  All values are modelled as strings; numeric payloads
    (ratings, coordinates, review counts) that the code merely passes
    through into the record are carried as their (opaque) string
    rendering — Python truthiness on these values is non-emptiness,
    which is what `_business_has_more_info` consumes.
  * Ratings that the code actually compares (`place['rating']`,
    `business.get('rating', 0)`, `min_rating`) are modelled as rationals:
    the code only uses their strict order.
  * Network responses are inputs: each remote call becomes a function
    parameter returning `Option` — `none` is the "status != OK" /
    `{"error": ...}` / transport-failure outcome that the Python client
    maps every request exception to.
  * Python's insertion-ordered `dict` is modelled as an association list
    in which overwriting an existing key keeps its position and a new
    key is appended at the end.
-/

/-- A normalized business record: the 13 boundary fields every provider
constructs (`Business Name`, `Category`, `Address`, `City`, `Country`,
`Phone Number`, `Email`, `Website`, `Google Rating`, `Number of Reviews`,
`Latitude`, `Longitude`, `API Source`). -/
structure Business where
  businessName : String
  category : String
  address : String
  city : String
  country : String
  phoneNumber : String
  email : String
  website : String
  googleRating : String
  numberOfReviews : String
  latitude : String
  longitude : String
  apiSource : String
deriving DecidableEq, Repr

/-- Model of Python's `str.lower()`: lower-case every character. -/
def pyLower (s : String) : String :=
  String.mk (s.data.map Char.toLower)

/-- Model of Python's `str.capitalize()`: upper-case the first character,
lower-case the rest. -/
def pyCapitalize (s : String) : String :=
  match s.data with
  | [] => ""
  | c :: cs => String.mk (c.toUpper :: cs.map Char.toLower)

/-- Dedup identity of a record:
`f"{business['Business Name']}|{business['Address']}".lower()`. -/
def bkey (b : Business) : String :=
  pyLower (b.businessName ++ "|" ++ b.address)

/-- Values of the 13 fields of a record, mirroring `business.values()`
(at dedup time the dictionaries hold exactly these 13 keys). -/
def fieldValues (b : Business) : List String :=
  [b.businessName, b.category, b.address, b.city, b.country, b.phoneNumber,
   b.email, b.website, b.googleRating, b.numberOfReviews, b.latitude,
   b.longitude, b.apiSource]

/-- Count of populated fields: `sum(1 for v in business.values() if v)`. -/
def populatedCount (b : Business) : Nat :=
  (fieldValues b).countP (fun s => decide (s ≠ ""))

/-- Transcription of `_business_has_more_info(new_business, existing_business)`
from src/backend/business_finder.py: email presence first, then phone
presence, then Google-source preference, else strictly greater populated
field count. -/
def business_has_more_info (newB existingB : Business) : Bool :=
  if newB.email ≠ "" ∧ existingB.email = "" then true
  else if newB.phoneNumber ≠ "" ∧ existingB.phoneNumber = "" then true
  else if newB.apiSource = "Google Places API" ∧ existingB.apiSource ≠ "Google Places API" then true
  else decide (populatedCount newB > populatedCount existingB)

/-- One step of `filter_duplicate_businesses`'s loop body: the dict write
`unique_businesses[key] = business` guarded by
`key not in unique_businesses or _business_has_more_info(business, unique_businesses[key])`.
A Python dict keeps the original position of an overwritten key and
appends a fresh key at the end. -/
def updateSurvivor (k : String) (b : Business) : List (String × Business) → List (String × Business)
  | [] => [(k, b)]
  | p :: rest =>
    if p.1 = k then (if business_has_more_info b p.2 then (k, b) else p) :: rest
    else p :: updateSurvivor k b rest

/-- Insertion-ordered contents of `unique_businesses` after scanning the
whole input list. -/
def dedupState (businesses : List Business) : List (String × Business) :=
  businesses.foldl (fun acc b => updateSurvivor (bkey b) b acc) []

/-- Transcription of `filter_duplicate_businesses(businesses)`:
`list(unique_businesses.values())`. -/
def filter_duplicate_businesses (businesses : List Business) : List Business :=
  (dedupState businesses).map Prod.snd

/-- First occurrence of each key in order, skipping keys already in `seen`. -/
def firstSeenAux (seen : List String) : List String → List String
  | [] => []
  | k :: rest => if k ∈ seen then firstSeenAux seen rest else k :: firstSeenAux (k :: seen) rest

/-- Keys of a list in the order in which they first occur. -/
def firstSeen (ks : List String) : List String :=
  firstSeenAux [] ks

/-! ### Structural lemmas about the dedup state -/

theorem updateSurvivor_fst (k : String) (b : Business) (acc : List (String × Business)) :
    (updateSurvivor k b acc).map Prod.fst =
      if k ∈ acc.map Prod.fst then acc.map Prod.fst else acc.map Prod.fst ++ [k] := by
  induction acc with
  | nil => simp [updateSurvivor]
  | cons p rest ih =>
    by_cases h : p.1 = k
    · cases hb : business_has_more_info b p.2 <;>
        simp [updateSurvivor, h, hb, List.mem_cons]
    · have h' : ¬ k = p.1 := fun hk => h hk.symm
      by_cases hm : k ∈ rest.map Prod.fst <;>
        simp [updateSurvivor, h, h', hm, ih, List.mem_cons]

theorem updateSurvivor_fst_mem (k k' : String) (b : Business) (acc : List (String × Business)) :
    k' ∈ (updateSurvivor k b acc).map Prod.fst ↔ k' ∈ acc.map Prod.fst ∨ k' = k := by
  rw [updateSurvivor_fst]
  by_cases hm : k ∈ acc.map Prod.fst
  · rw [if_pos hm]
    constructor
    · exact Or.inl
    · rintro (h | rfl)
      · exact h
      · exact hm
  · rw [if_neg hm]
    simp [List.mem_append]

theorem updateSurvivor_key (k : String) (b : Business) (hk : k = bkey b) :
    ∀ acc : List (String × Business), (∀ p ∈ acc, p.1 = bkey p.2) →
      ∀ p ∈ updateSurvivor k b acc, p.1 = bkey p.2 := by
  intro acc
  induction acc with
  | nil =>
    intro _ p hp
    simp only [updateSurvivor, List.mem_singleton] at hp
    subst hp; exact hk
  | cons q rest ih =>
    intro hacc p hp
    by_cases h : q.1 = k
    · by_cases hb : business_has_more_info b q.2 = true
      · simp only [updateSurvivor, h, if_true, hb, if_pos, List.mem_cons] at hp
        rcases hp with rfl | hp
        · exact hk
        · exact hacc p (List.mem_cons_of_mem q hp)
      · simp only [updateSurvivor, h, if_true, hb, if_false, List.mem_cons] at hp
        rcases hp with rfl | hp
        · exact hacc p (List.mem_cons_self p rest)
        · exact hacc p (List.mem_cons_of_mem q hp)
    · simp only [updateSurvivor, h, if_false, List.mem_cons] at hp
      rcases hp with rfl | hp
      · exact hacc p (List.mem_cons_self p rest)
      · exact ih (fun q' hq' => hacc q' (List.mem_cons_of_mem q hq')) p hp

theorem firstSeenAux_congr (ks : List String) :
    ∀ s1 s2 : List String, (∀ x, x ∈ s1 ↔ x ∈ s2) →
      firstSeenAux s1 ks = firstSeenAux s2 ks := by
  induction ks with
  | nil => intro s1 s2 _; rfl
  | cons k rest ih =>
    intro s1 s2 hs
    by_cases h : k ∈ s1
    · rw [firstSeenAux, firstSeenAux, if_pos h, if_pos ((hs k).1 h)]
      exact ih s1 s2 hs
    · rw [firstSeenAux, firstSeenAux, if_neg h, if_neg (fun hk => h ((hs k).2 hk))]
      exact congrArg _ (ih _ _ (fun x => by simp only [List.mem_cons, hs x]))

theorem firstSeenAux_mem (k : String) (ks : List String) :
    ∀ seen, k ∈ firstSeenAux seen ks ↔ k ∈ ks ∧ k ∉ seen := by
  induction ks with
  | nil => intro seen; simp [firstSeenAux]
  | cons k' rest ih =>
    intro seen
    by_cases h : k' ∈ seen
    · rw [firstSeenAux, if_pos h, ih]
      constructor
      · rintro ⟨hk, hs⟩; exact ⟨List.mem_cons_of_mem _ hk, hs⟩
      · rintro ⟨hk, hs⟩
        rcases List.mem_cons.1 hk with rfl | hk
        · exact absurd h hs
        · exact ⟨hk, hs⟩
    · rw [firstSeenAux, if_neg h, List.mem_cons, ih, List.mem_cons, List.mem_cons]
      by_cases hkk : k = k'
      · subst hkk; simp [h]
      · simp [hkk]

theorem firstSeenAux_nodup (ks : List String) :
    ∀ seen, (firstSeenAux seen ks).Nodup := by
  induction ks with
  | nil => intro seen; simp [firstSeenAux]
  | cons k rest ih =>
    intro seen
    by_cases h : k ∈ seen
    · rw [firstSeenAux, if_pos h]; exact ih seen
    · rw [firstSeenAux, if_neg h]
      refine List.nodup_cons.2 ⟨fun hk => ?_, ih _⟩
      exact ((firstSeenAux_mem k rest _).1 hk).2 (List.mem_cons_self k seen)

theorem dedupFold_fst (l : List Business) :
    ∀ acc : List (String × Business),
      ((l.foldl (fun acc b => updateSurvivor (bkey b) b acc) acc).map Prod.fst) =
        acc.map Prod.fst ++ firstSeenAux (acc.map Prod.fst) (l.map bkey) := by
  induction l with
  | nil => intro acc; simp [firstSeenAux]
  | cons b rest ih =>
    intro acc
    rw [List.foldl_cons, ih, List.map_cons]
    by_cases h : bkey b ∈ acc.map Prod.fst
    · rw [updateSurvivor_fst, if_pos h, firstSeenAux, if_pos h]
    · rw [updateSurvivor_fst, if_neg h, firstSeenAux, if_neg h]
      have hcongr : firstSeenAux (acc.map Prod.fst ++ [bkey b]) (rest.map bkey)
          = firstSeenAux (bkey b :: acc.map Prod.fst) (rest.map bkey) :=
        firstSeenAux_congr _ _ _ (fun x => by
          simp only [List.mem_append, List.mem_cons, List.mem_singleton]
          tauto)
      rw [hcongr, List.append_assoc, List.singleton_append]

theorem dedupState_key (l : List Business) : ∀ p ∈ dedupState l, p.1 = bkey p.2 := by
  have h : ∀ acc, (∀ p ∈ acc, p.1 = bkey p.2) →
      ∀ p ∈ l.foldl (fun acc b => updateSurvivor (bkey b) b acc) acc, p.1 = bkey p.2 := by
    induction l with
    | nil => intro acc hacc; simpa using hacc
    | cons b rest ih =>
      intro acc hacc
      rw [List.foldl_cons]
      exact ih _ (updateSurvivor_key (bkey b) b rfl acc hacc)
  exact h [] (by simp)

theorem filter_map_bkey (l : List Business) :
    (filter_duplicate_businesses l).map bkey = (dedupState l).map Prod.fst := by
  rw [filter_duplicate_businesses, List.map_map]
  exact List.map_congr_left (fun p hp => (dedupState_key l p hp).symm)

theorem filter_fst_eq (l : List Business) :
    (filter_duplicate_businesses l).map bkey = firstSeen (l.map bkey) := by
  rw [filter_map_bkey, dedupState, dedupFold_fst l [], firstSeen]
  simp

theorem filter_keys_nodup (l : List Business) :
    ((filter_duplicate_businesses l).map bkey).Nodup := by
  rw [filter_fst_eq, firstSeen]
  exact firstSeenAux_nodup _ _

theorem filter_mem_keys (l : List Business) (k : String) :
    k ∈ (filter_duplicate_businesses l).map bkey ↔ k ∈ l.map bkey := by
  rw [filter_fst_eq, firstSeen, firstSeenAux_mem]
  simp

theorem updateSurvivor_not_mem (k : String) (b : Business) :
    ∀ acc : List (String × Business), k ∉ acc.map Prod.fst →
      updateSurvivor k b acc = acc ++ [(k, b)] := by
  intro acc
  induction acc with
  | nil => intro _; rfl
  | cons p rest ih =>
    intro h
    simp only [List.map_cons, List.mem_cons] at h
    push_neg at h
    rw [updateSurvivor, if_neg (fun hp => h.1 hp.symm), ih h.2, List.cons_append]

theorem dedupFold_of_nodup (l : List Business) :
    ∀ acc : List (String × Business), (l.map bkey).Nodup →
      (∀ b ∈ l, bkey b ∉ acc.map Prod.fst) →
      l.foldl (fun acc b => updateSurvivor (bkey b) b acc) acc
        = acc ++ l.map (fun b => (bkey b, b)) := by
  induction l with
  | nil => intro acc _ _; simp
  | cons b rest ih =>
    intro acc hnd hfresh
    rw [List.map_cons, List.nodup_cons] at hnd
    rw [List.foldl_cons, updateSurvivor_not_mem _ _ _ (hfresh b (List.mem_cons_self b rest)),
      ih _ hnd.2 ?_]
    · simp
    · intro b' hb'
      simp only [List.map_append, List.mem_append, List.map_cons, List.map_nil,
        List.mem_singleton]
      push_neg
      refine ⟨hfresh b' (List.mem_cons_of_mem b hb'), fun hkey => ?_⟩
      exact hnd.1 (hkey ▸ List.mem_map_of_mem bkey hb')

theorem filter_of_nodup_keys (l : List Business) (h : (l.map bkey).Nodup) :
    filter_duplicate_businesses l = l := by
  rw [filter_duplicate_businesses, dedupState, dedupFold_of_nodup l [] h (by simp)]
  simp only [List.nil_append, List.map_map]
  exact List.map_id'' (fun b => rfl) l

theorem dedupe_pair (x y : Business) (h : bkey x = bkey y) :
    filter_duplicate_businesses [x, y] =
      if business_has_more_info y x then [y] else [x] := by
  simp only [filter_duplicate_businesses, dedupState, List.foldl_cons, List.foldl_nil]
  rw [show updateSurvivor (bkey x) x [] = [(bkey x, x)] from rfl]
  rw [updateSurvivor, if_pos h]
  by_cases hb : business_has_more_info y x = true
  · rw [if_pos hb, if_pos hb]; rfl
  · rw [if_neg hb, if_neg hb]; rfl

theorem business_has_more_info_iff (n e : Business) :
    business_has_more_info n e = true ↔
      (n.email ≠ "" ∧ e.email = "") ∨
      (n.phoneNumber ≠ "" ∧ e.phoneNumber = "") ∨
      (n.apiSource = "Google Places API" ∧ e.apiSource ≠ "Google Places API") ∨
      populatedCount n > populatedCount e := by
  rw [business_has_more_info]
  split_ifs with h1 h2 h3
  · simp [h1]
  · simp [h1, h2]
  · simp [h1, h2, h3]
  · simp [h1, h2, h3]

/-! ### Concrete records used by counterexamples and witnesses -/

/-- Record colliding with `recPhone`, carrying an email and no phone. -/
def recEmail : Business :=
  { businessName := "Cafe Roma", category := "Cafe", address := "Via Appia 1",
    city := "", country := "", phoneNumber := "", email := "info@caferoma.it",
    website := "", googleRating := "", numberOfReviews := "",
    latitude := "", longitude := "", apiSource := "OpenStreetMap API" }

/-- Record colliding with `recEmail`, carrying a phone and no email. -/
def recPhone : Business :=
  { recEmail with email := "", phoneNumber := "+39 06 1234" }

/-- Premium-sourced record with few populated fields (no email, no phone). -/
def recPremium : Business :=
  { businessName := "Hotel Sole", category := "Hotel", address := "Piazza Duomo 2",
    city := "", country := "", phoneNumber := "", email := "",
    website := "", googleRating := "", numberOfReviews := "",
    latitude := "", longitude := "", apiSource := "Google Places API" }

/-- Free-sourced record colliding with `recPremium`, with strictly more
populated fields (city and website), still no email and no phone. -/
def recFree : Business :=
  { recPremium with apiSource := "OpenStreetMap API", city := "Milan", website := "hotelsole.it" }

/-- Record tying with `recTieB` under every tie-break rule. -/
def recTieA : Business :=
  { businessName := "Bar Luna", category := "Bar", address := "Corso Italia 3",
    city := "Rome", country := "", phoneNumber := "", email := "",
    website := "", googleRating := "", numberOfReviews := "",
    latitude := "", longitude := "", apiSource := "Yelp Fusion API" }

/-- Record tying with `recTieA` under every tie-break rule but not equal to it. -/
def recTieB : Business :=
  { recTieA with city := "Roma" }

/-! ### Claims C1, C2, C3, C5, C6 -/

/-- Claim C1: for every input list, `filter_duplicate_businesses` returns
exactly one record per distinct lower-cased name|address identity occurring
in the input — the output keys are pairwise distinct, and a key occurs in
the output iff it occurs in the input. -/
theorem dedupe_unique_identity (l : List Business) :
    ((filter_duplicate_businesses l).map bkey).Nodup ∧
      ∀ k : String, k ∈ (filter_duplicate_businesses l).map bkey ↔ k ∈ l.map bkey :=
  ⟨filter_keys_nodup l, fun k => filter_mem_keys l k⟩

/-- Claim C2 counterexample: two colliding records where only `recEmail`
carries a non-empty email, yet the email-less `recPhone` (arriving second,
carrying a phone the survivor lacks) wins — the emailed record does NOT
always survive. -/
theorem email_survivor_counterexample :
    bkey recEmail = bkey recPhone ∧ recEmail.email ≠ "" ∧ recPhone.email = "" ∧
      filter_duplicate_businesses [recEmail, recPhone] = [recPhone] ∧
      recPhone.email = "" := by decide

/-- Claim C2 as amended: when exactly one of two colliding records carries a
non-empty email, the emailed record always wins when it arrives second; when
it arrives first it survives unless the later email-less record wins a
lower-priority rule (phone presence against an empty phone, premium source
against a non-premium one, or strictly more populated fields). -/
theorem email_survivor_amended (e n : Business) (hk : bkey e = bkey n)
    (he : e.email ≠ "") (hn : n.email = "") :
    filter_duplicate_businesses [n, e] = [e] ∧
      filter_duplicate_businesses [e, n] =
        (if (n.phoneNumber ≠ "" ∧ e.phoneNumber = "")
            ∨ (n.apiSource = "Google Places API" ∧ e.apiSource ≠ "Google Places API")
            ∨ populatedCount n > populatedCount e
         then [n] else [e]) := by
  constructor
  · have hbm : business_has_more_info e n = true :=
      (business_has_more_info_iff e n).2 (Or.inl ⟨he, hn⟩)
    rw [dedupe_pair n e hk.symm, hbm]
    simp
  · rw [dedupe_pair e n hk]
    by_cases hcond : (n.phoneNumber ≠ "" ∧ e.phoneNumber = "")
        ∨ (n.apiSource = "Google Places API" ∧ e.apiSource ≠ "Google Places API")
        ∨ populatedCount n > populatedCount e
    · have hbm : business_has_more_info n e = true :=
        (business_has_more_info_iff n e).2 (Or.inr hcond)
      rw [hbm, if_pos hcond]
      simp
    · have hbm : business_has_more_info n e = false := by
        cases hb : business_has_more_info n e
        · rfl
        · rcases (business_has_more_info_iff n e).1 hb with h | h
          · exact absurd h.1 (fun hne => hne hn)
          · exact absurd h hcond
      rw [hbm, if_neg hcond]
      simp

/-- Claim C2 witness: the amended statement evaluated on the concrete
colliding pair `recEmail` / `recPhone`. -/
theorem email_survivor_amended_witness :
    filter_duplicate_businesses [recPhone, recEmail] = [recEmail] ∧
      filter_duplicate_businesses [recEmail, recPhone] =
        (if (recPhone.phoneNumber ≠ "" ∧ recEmail.phoneNumber = "")
            ∨ (recPhone.apiSource = "Google Places API" ∧ recEmail.apiSource ≠ "Google Places API")
            ∨ populatedCount recPhone > populatedCount recEmail
         then [recPhone] else [recEmail]) :=
  email_survivor_amended recEmail recPhone (by decide) (by decide) (by decide)

/-- Claim C3 counterexample: two colliding records with equal email and
phone presence (all empty) where only `recPremium` is Google-sourced, yet
the non-premium `recFree` (arriving second, with strictly more populated
fields) survives — the premium-sourced record does NOT always survive. -/
theorem premium_survivor_counterexample :
    bkey recPremium = bkey recFree ∧
      recPremium.email = "" ∧ recFree.email = "" ∧
      recPremium.phoneNumber = "" ∧ recFree.phoneNumber = "" ∧
      recPremium.apiSource = "Google Places API" ∧
      recFree.apiSource ≠ "Google Places API" ∧
      filter_duplicate_businesses [recPremium, recFree] = [recFree] := by decide

/-- Claim C3 as amended: with equal email and phone presence, the
premium-sourced record always survives when it arrives second; when it
arrives first, it survives iff the later non-premium record does not carry
strictly more populated fields. -/
theorem premium_survivor_amended (g o : Business) (hk : bkey g = bkey o)
    (hes : g.email = "" ↔ o.email = "") (hps : g.phoneNumber = "" ↔ o.phoneNumber = "")
    (hg : g.apiSource = "Google Places API") (ho : o.apiSource ≠ "Google Places API") :
    filter_duplicate_businesses [o, g] = [g] ∧
      filter_duplicate_businesses [g, o] =
        (if populatedCount o > populatedCount g then [o] else [g]) := by
  constructor
  · have hbm : business_has_more_info g o = true :=
      (business_has_more_info_iff g o).2 (Or.inr (Or.inr (Or.inl ⟨hg, ho⟩)))
    rw [dedupe_pair o g hk.symm, hbm]
    simp
  · rw [dedupe_pair g o hk]
    have h1 : ¬(o.email ≠ "" ∧ g.email = "") := fun h => h.1 (hes.1 h.2)
    have h2 : ¬(o.phoneNumber ≠ "" ∧ g.phoneNumber = "") := fun h => h.1 (hps.1 h.2)
    have h3 : ¬(o.apiSource = "Google Places API" ∧ g.apiSource ≠ "Google Places API") :=
      fun h => ho h.1
    by_cases hcond : populatedCount o > populatedCount g
    · have hbm : business_has_more_info o g = true :=
        (business_has_more_info_iff o g).2 (Or.inr (Or.inr (Or.inr hcond)))
      rw [hbm, if_pos hcond]
      simp
    · have hbm : business_has_more_info o g = false := by
        cases hb : business_has_more_info o g
        · rfl
        · rcases (business_has_more_info_iff o g).1 hb with h | h | h | h
          · exact absurd h h1
          · exact absurd h h2
          · exact absurd h h3
          · exact absurd h hcond
      rw [hbm, if_neg hcond]
      simp

/-- Claim C3 witness: the amended statement evaluated on the concrete
colliding pair `recPremium` / `recFree`. -/
theorem premium_survivor_amended_witness :
    filter_duplicate_businesses [recFree, recPremium] = [recPremium] ∧
      filter_duplicate_businesses [recPremium, recFree] =
        (if populatedCount recFree > populatedCount recPremium
         then [recFree] else [recPremium]) :=
  premium_survivor_amended recPremium recFree (by decide) (by decide) (by decide)
    (by decide) (by decide)

/-- Claim C5: `filter_duplicate_businesses` is idempotent — applying it to
its own output returns that output unchanged, for every input sequence. -/
theorem dedupe_idempotent (l : List Business) :
    filter_duplicate_businesses (filter_duplicate_businesses l)
      = filter_duplicate_businesses l :=
  filter_of_nodup_keys _ (filter_keys_nodup l)

/-- Claim C6: the output of `filter_duplicate_businesses` lists survivors in
the order in which their dedup identities first appear in the input (even
when a later colliding record replaces an earlier survivor), and on an
exact tie under all tie-break rules (equal email presence, equal phone
presence, equal premium-source status, equal populated-field count) the
first-seen record is kept. -/
theorem dedupe_order_preservation :
    (∀ l : List Business,
      (filter_duplicate_businesses l).map bkey = firstSeen (l.map bkey)) ∧
    (∀ b1 b2 : Business, bkey b1 = bkey b2 →
      (b1.email = "" ↔ b2.email = "") →
      (b1.phoneNumber = "" ↔ b2.phoneNumber = "") →
      (b1.apiSource = "Google Places API" ↔ b2.apiSource = "Google Places API") →
      populatedCount b1 = populatedCount b2 →
      filter_duplicate_businesses [b1, b2] = [b1]) := by
  refine ⟨filter_fst_eq, fun b1 b2 hk hes hps hss hc => ?_⟩
  have hbm : business_has_more_info b2 b1 = false := by
    cases hb : business_has_more_info b2 b1
    · rfl
    · rcases (business_has_more_info_iff b2 b1).1 hb with h | h | h | h
      · exact absurd h (fun h => h.1 (hes.1 h.2))
      · exact absurd h (fun h => h.1 (hps.1 h.2))
      · exact absurd h (fun h => h.2 (hss.2 h.1))
      · exact absurd h (by omega)
  rw [dedupe_pair b1 b2 hk, hbm]
  simp

/-- Claim C6 witness: order preservation evaluated on a concrete input with
a replacement in the middle, and the exact-tie case evaluated on the
concrete tying pair `recTieA` / `recTieB`. -/
theorem dedupe_order_preservation_witness :
    (filter_duplicate_businesses [recEmail, recPremium, recPhone]).map bkey
        = firstSeen ([recEmail, recPremium, recPhone].map bkey) ∧
      filter_duplicate_businesses [recTieA, recTieB] = [recTieA] :=
  ⟨dedupe_order_preservation.1 [recEmail, recPremium, recPhone],
   dedupe_order_preservation.2 recTieA recTieB (by decide) (by decide) (by decide)
     (by decide) (by decide)⟩

/-! ### Orchestration (src/backend/app.py and services/business_service.py) -/

/-- Fixed category set iterated by the "all" branch of app.py's
`search_businesses` route handler. -/
def allCategoryList : List String :=
  ["hotel", "restaurant", "bar", "cafe", "bakery", "nightclub"]

/-- Transcription of the core of app.py's `search_businesses` route handler:
`search` stands for `api.search_businesses` with `location`, `radius_km` and
`min_rating` already fixed.  When `category.lower() == 'all'` the handler
calls the provider once per category, concatenates, and filters duplicates
once; otherwise it returns the single provider call's result unchanged. -/
def appSearchBusinesses (search : String → List Business) (category : String) : List Business :=
  if pyLower category = "all" then
    filter_duplicate_businesses ((allCategoryList.map search).flatten)
  else
    search category

/-- Transcription of `get_businesses` from
src/backend/services/business_service.py (ignoring its response cache,
which returns the same value for a repeated key): one provider call for the
given category, then `filter_duplicate_businesses` once. -/
def serviceGetBusinesses (search : String → List Business) (category : String) : List Business :=
  filter_duplicate_businesses (search category)

/-- Claim C4 counterexample: in app.py's orchestrator a single-tag search
does NOT pass the provider result through dedupe — a provider returning the
same record twice yields a duplicated output, while dedupe would collapse
it. -/
theorem single_tag_dedupe_counterexample :
    appSearchBusinesses (fun _ => [recTieA, recTieA]) "restaurant"
        = [recTieA, recTieA] ∧
      filter_duplicate_businesses [recTieA, recTieA] = [recTieA] ∧
      ([recTieA, recTieA] : List Business) ≠ [recTieA] := by decide

/-- Claim C4 as amended: app.py's orchestrator fans an "all" search out into
one provider call per category of the fixed six-category set and passes the
full concatenation through dedupe exactly once (so its output identities are
pairwise distinct), but returns a single-tag search's provider result
without invoking dedupe; the service-layer orchestrator
(`get_businesses` in business_service.py) invokes the provider once for the
given category and passes the result through dedupe once (its output has
pairwise distinct identities, covering exactly the identities the provider
returned). -/
theorem orchestrator_dedupe_amended :
    (∀ (search : String → List Business) (category : String),
      appSearchBusinesses search category =
        if pyLower category = "all"
        then filter_duplicate_businesses ((allCategoryList.map search).flatten)
        else search category) ∧
    (∀ search : String → List Business,
      ((appSearchBusinesses search "all").map bkey).Nodup) ∧
    (∀ (search : String → List Business) (category : String),
      ((serviceGetBusinesses search category).map bkey).Nodup ∧
      ∀ k, k ∈ (serviceGetBusinesses search category).map bkey
        ↔ k ∈ (search category).map bkey) := by
  refine ⟨fun search category => rfl, fun search => ?_, fun search category => ?_⟩
  · have h : appSearchBusinesses search "all"
        = filter_duplicate_businesses ((allCategoryList.map search).flatten) := by
      rw [appSearchBusinesses, if_pos (by decide)]
    rw [h]
    exact filter_keys_nodup _
  · exact ⟨filter_keys_nodup _, fun k => filter_mem_keys _ k⟩

/-! ### Provider clients (src/backend/business_finder.py)

Remote responses are inputs to the embedded search functions: `none`
models the outcome that the Python code treats as a failure (a request
exception mapped to an error payload, or a response whose status / error
field marks it unsuccessful). -/

/-- Email enrichment shared by the Google and Yelp record constructions:
`if business_data['Website']: email = self.extract_email_from_website(...);
if email: business_data['Email'] = email`. -/
def enrichEmail (extractEmail : String → Option String) (b : Business) : Business :=
  if b.website ≠ "" then
    match extractEmail b.website with
    | some e => { b with email := e }
    | none => b
  else b

/-- Coordinates returned by the Google geocode call
(`geocode_result['results'][0]['geometry']['location']`); only threaded
into the nearby-search request. -/
structure GLocation where
  lat : String
  lng : String
deriving DecidableEq, Repr

/-- One entry of a Google details response's `address_components`. -/
structure GAddressComponent where
  long_name : String
  types : List String
deriving DecidableEq, Repr

/-- Payload of a successful Google place-details response (`result`);
numeric payloads are carried as opaque strings, as the code only copies
them into the record. -/
structure GDetails where
  name : String
  formatted_address : String
  formatted_phone_number : String
  website : String
  rating : String
  user_ratings_total : String
  lat : String
  lng : String
  address_components : List GAddressComponent
deriving DecidableEq, Repr

/-- A candidate of a Google nearby-search response: `rating` is `none` when
the `'rating'` key is absent from the place dictionary. -/
structure GPlace where
  place_id : String
  name : String
  rating : Option Rat
deriving DecidableEq, Repr

/-- A Google nearby-search response page: its `results` list and the
optional `next_page_token`. -/
structure GSearchPage where
  results : List GPlace
  next_page_token : Option String
deriving DecidableEq, Repr

/-- Category translation `category_map.get(category.lower(), category.lower())`
of `GooglePlacesAPI.search_businesses`. -/
def googleType (category : String) : String :=
  let c := pyLower category
  if c = "hotel" then "lodging"
  else if c = "restaurant" then "restaurant"
  else if c = "bar" then "bar"
  else if c = "cafe" then "cafe"
  else if c = "bakery" then "bakery"
  else if c = "nightclub" then "night_club"
  else c

/-- Radius conversion of `GooglePlacesAPI.search_businesses`:
`radius_meters = radius_km * 1000`. -/
def googleRadiusMeters (radius_km : Int) : Int :=
  radius_km * 1000

/-- City/country extraction from `address_components`: the loop sets `city`
from each component typed `locality` and (elif) `country` from each
component typed `country`. -/
def gExtractCityCountry (comps : List GAddressComponent) : String × String :=
  comps.foldl
    (fun cc comp =>
      if "locality" ∈ comp.types then (comp.long_name, cc.2)
      else if "country" ∈ comp.types then (cc.1, comp.long_name)
      else cc)
    ("", "")

/-- Construction of `business_data` from a successful Google details
response, followed by the email enrichment attempt. -/
def googleBuildBusiness (category : String) (extractEmail : String → Option String)
    (d : GDetails) : Business :=
  enrichEmail extractEmail
    { businessName := d.name, category := pyCapitalize category,
      address := d.formatted_address, city := (gExtractCityCountry d.address_components).1,
      country := (gExtractCityCountry d.address_components).2,
      phoneNumber := d.formatted_phone_number, email := "",
      website := d.website, googleRating := d.rating,
      numberOfReviews := d.user_ratings_total, latitude := d.lat,
      longitude := d.lng, apiSource := "Google Places API" }

/-- Per-candidate processing of the Google search loop body: skip when
`'rating' in place and place['rating'] < min_rating`; then the details
call, whose failure (`status != 'OK'`) skips the candidate; otherwise the
record is built. -/
def googleProcessPlace (details : String → Option GDetails)
    (extractEmail : String → Option String) (category : String)
    (min_rating : Rat) (p : GPlace) : Option Business :=
  if p.rating.any (fun r => decide (r < min_rating)) then none
  else
    match details p.place_id with
    | none => none
    | some d => some (googleBuildBusiness category extractEmail d)

/-- The Google result loop: iterates the initial response's `results` list
(the `for` iterator is bound once); after each appended record, if the
current response dictionary carries `next_page_token`, the next page is
requested — on success it replaces the current response, on failure the
loop `break`s, truncating iteration. Skipped candidates `continue` past
the pagination block. -/
def googleLoop (details : String → Option GDetails)
    (extractEmail : String → Option String) (category : String)
    (min_rating : Rat) (nextPage : String → Option GSearchPage) :
    List GPlace → GSearchPage → List Business
  | [], _ => []
  | p :: rest, cur =>
    match googleProcessPlace details extractEmail category min_rating p with
    | none => googleLoop details extractEmail category min_rating nextPage rest cur
    | some biz =>
      match cur.next_page_token with
      | none => biz :: googleLoop details extractEmail category min_rating nextPage rest cur
      | some tok =>
        match nextPage tok with
        | some newPage =>
            biz :: googleLoop details extractEmail category min_rating nextPage rest newPage
        | none => [biz]

/-- Transcription of `GooglePlacesAPI.search_businesses`: geocode failure
(status not `'OK'`) returns `[]`; nearby-search failure returns `[]`;
otherwise the result loop runs. The nearby request carries the translated
category and the radius in meters. -/
def googleSearchBusinesses (geocode : Option GLocation)
    (nearby : GLocation → String → Int → Option GSearchPage)
    (details : String → Option GDetails) (extractEmail : String → Option String)
    (nextPage : String → Option GSearchPage)
    (category : String) (radius_km : Int) (min_rating : Rat) : List Business :=
  match geocode with
  | none => []
  | some loc =>
    match nearby loc (googleType category) (googleRadiusMeters radius_km) with
    | none => []
    | some page =>
        googleLoop details extractEmail category min_rating nextPage page.results page

/-- Resolved location of the OpenStreetMap Nominatim lookup
(`location_result[0]`); only `display_name` feeds the record construction
(coordinates only shape the abstracted Overpass query). -/
structure OsmLocation where
  display_name : String
deriving DecidableEq, Repr

/-- One element of an Overpass response (`results['elements']`); numeric
coordinates are carried as opaque strings. -/
structure OsmElement where
  type : String
  tags : List (String × String)
  lat : String
  lon : String
deriving DecidableEq, Repr

/-- Dictionary lookup on an element's tag table: `tags.get(key)`. -/
def tagLookup (tags : List (String × String)) (k : String) : Option String :=
  (tags.find? (fun p => p.1 == k)).map Prod.snd

/-- Address assembly of `OpenStreetMapAPI.search_businesses`: house
number + street when both are present, else street alone; then the
postcode; joined with `", "`. -/
def osmAddress (tags : List (String × String)) : String :=
  String.intercalate ", "
    ((match tagLookup tags "addr:housenumber", tagLookup tags "addr:street" with
      | some num, some street => [num ++ " " ++ street]
      | none, some street => [street]
      | _, _ => []) ++
     (match tagLookup tags "addr:postcode" with
      | some pc => [pc]
      | none => []))

/-- Per-element processing of the OSM result loop: non-`node` elements and
elements without a `name` tag are skipped; no rating filter exists.
City/country default to the first/last comma-separated pieces of the
resolved location's display name; email enrichment runs only when a
website tag is present and the element carries no email tag. -/
def osmProcessElement (loc : OsmLocation) (extractEmail : String → Option String)
    (category : String) (e : OsmElement) : Option Business :=
  if e.type ≠ "node" then none
  else
    match tagLookup e.tags "name" with
    | none => none
    | some nm =>
      let website := (tagLookup e.tags "website").getD ""
      let base : Business :=
        { businessName := nm, category := pyCapitalize category,
          address := osmAddress e.tags,
          city :=
            (match tagLookup e.tags "addr:city" with
             | some c => c
             | none => ((loc.display_name.splitOn ",").headD "")),
          country :=
            (match tagLookup e.tags "addr:country" with
             | some c => c
             | none => ((loc.display_name.splitOn ",").getLastD "").trim),
          phoneNumber := (tagLookup e.tags "phone").getD "",
          email := (tagLookup e.tags "email").getD "",
          website := website, googleRating := "", numberOfReviews := "",
          latitude := e.lat, longitude := e.lon,
          apiSource := "OpenStreetMap API" }
      some
        (if website ≠ "" ∧ base.email = "" then
          match extractEmail website with
          | some em => { base with email := em }
          | none => base
        else base)

/-- Transcription of `OpenStreetMapAPI.search_businesses`: Nominatim
failure (error payload or empty result list) returns `[]`; Overpass
failure returns `[]`; otherwise every element is processed in order. The
`min_rating` argument is accepted but never used — the provider has no
rating concept. -/
def osmSearchBusinesses (locationResult : Option OsmLocation)
    (overpass : Option (List OsmElement)) (extractEmail : String → Option String)
    (category : String) (radius_km : Int) (min_rating : Rat) : List Business :=
  match locationResult with
  | none => []
  | some loc =>
    match overpass with
    | none => []
    | some elements => elements.filterMap (osmProcessElement loc extractEmail category)

/-- A candidate of a Yelp search response: `id` is `""` when missing
(`if not business_id: continue`); `rating` is `none` when the key is
absent (the filter reads `business.get('rating', 0)`, the record stores
`str(business.get('rating', ''))`). -/
structure YBusiness where
  id : String
  name : String
  rating : Option Rat
  phone : String
  url : String
  review_count : Option Int
  city : String
  country : String
  display_address : List String
  latitude : String
  longitude : String
deriving DecidableEq, Repr

/-- A Yelp search response page: its `businesses` list plus the `offset`
and `total` fields driving pagination. -/
structure YSearchPage where
  businesses : List YBusiness
  offset : Int
  total : Int
deriving DecidableEq, Repr

/-- Radius conversion of `YelpFusionAPI.search_businesses`:
`radius_meters = radius_km * 1000`, capped at Yelp's documented maximum of
40000 meters. -/
def yelpRadiusMeters (radius_km : Int) : Int :=
  if radius_km * 1000 > 40000 then 40000 else radius_km * 1000

/-- Category translation `category_map.get(category.lower(), category.lower())`
of `YelpFusionAPI.search_businesses`. -/
def yelpCategoryTag (category : String) : String :=
  let c := pyLower category
  if c = "hotel" then "hotels"
  else if c = "restaurant" then "restaurants"
  else if c = "bar" then "bars"
  else if c = "cafe" then "cafes"
  else if c = "bakery" then "bakeries"
  else if c = "nightclub" then "nightlife"
  else c

/-- Construction of `business_data` from a Yelp search candidate (the
details response is fetched but unused), followed by the email enrichment
attempt. -/
def yelpBuildBusiness (category : String) (extractEmail : String → Option String)
    (b : YBusiness) : Business :=
  enrichEmail extractEmail
    { businessName := b.name, category := pyCapitalize category,
      address := String.intercalate ", " b.display_address,
      city := b.city, country := b.country, phoneNumber := b.phone,
      email := "", website := b.url,
      googleRating := (match b.rating with | none => "" | some r => toString r),
      numberOfReviews := (match b.review_count with | none => "" | some n => toString n),
      latitude := b.latitude, longitude := b.longitude,
      apiSource := "Yelp Fusion API" }

/-- Per-candidate processing of the Yelp search loop body: skip when
`business.get('rating', 0) < min_rating`; skip when the id is missing;
then the details call, whose failure skips the candidate; otherwise the
record is built from the search candidate. -/
def yelpProcessBusiness (details : String → Option Unit)
    (extractEmail : String → Option String) (category : String)
    (min_rating : Rat) (b : YBusiness) : Option Business :=
  if b.rating.getD 0 < min_rating then none
  else if b.id = "" then none
  else
    match details b.id with
    | none => none
    | some _ => some (yelpBuildBusiness category extractEmail b)

/-- The Yelp result loop: iterates the initial response's `businesses`
list (the `for` iterator is bound once); after each appended record the
pagination step computes `offset = search_result['offset'] +
len(search_result['businesses'])` from the current response and, while
`offset < total and offset < 1000`, requests the next page — replacing the
current response on success and `break`ing on failure. Skipped candidates
`continue` past the pagination block. -/
def yelpLoop (details : String → Option Unit)
    (extractEmail : String → Option String) (category : String)
    (min_rating : Rat) (nextSearch : Int → Option YSearchPage) :
    List YBusiness → YSearchPage → List Business
  | [], _ => []
  | b :: rest, cur =>
    match yelpProcessBusiness details extractEmail category min_rating b with
    | none => yelpLoop details extractEmail category min_rating nextSearch rest cur
    | some biz =>
      if cur.offset + (cur.businesses.length : Int) < cur.total
          ∧ cur.offset + (cur.businesses.length : Int) < 1000 then
        match nextSearch (cur.offset + (cur.businesses.length : Int)) with
        | some newPage =>
            biz :: yelpLoop details extractEmail category min_rating nextSearch rest newPage
        | none => [biz]
      else biz :: yelpLoop details extractEmail category min_rating nextSearch rest cur

/-- Transcription of `YelpFusionAPI.search_businesses`: a search response
carrying an error returns `[]`; otherwise the result loop runs. The search
request carries the translated category and the capped radius in meters. -/
def yelpSearchBusinesses (searchResp : String → Int → Option YSearchPage)
    (details : String → Option Unit) (extractEmail : String → Option String)
    (nextSearch : Int → Option YSearchPage)
    (category : String) (radius_km : Int) (min_rating : Rat) : List Business :=
  match searchResp (yelpCategoryTag category) (yelpRadiusMeters radius_km) with
  | none => []
  | some page =>
      yelpLoop details extractEmail category min_rating nextSearch page.businesses page

/-! ### Loop lemmas for the provider clients -/

theorem googleLoop_cons_none (details : String → Option GDetails)
    (extractEmail : String → Option String) (category : String) (min_rating : Rat)
    (nextPage : String → Option GSearchPage) (p : GPlace) (rest : List GPlace)
    (cur : GSearchPage)
    (hp : googleProcessPlace details extractEmail category min_rating p = none) :
    googleLoop details extractEmail category min_rating nextPage (p :: rest) cur
      = googleLoop details extractEmail category min_rating nextPage rest cur := by
  rw [googleLoop, hp]

theorem googleLoop_cons_notok (details : String → Option GDetails)
    (extractEmail : String → Option String) (category : String) (min_rating : Rat)
    (nextPage : String → Option GSearchPage) (p : GPlace) (rest : List GPlace)
    (cur : GSearchPage) (biz : Business)
    (hp : googleProcessPlace details extractEmail category min_rating p = some biz)
    (htok : cur.next_page_token = none) :
    googleLoop details extractEmail category min_rating nextPage (p :: rest) cur
      = biz :: googleLoop details extractEmail category min_rating nextPage rest cur := by
  rw [googleLoop, hp, htok]

theorem googleLoop_cons_tok_ok (details : String → Option GDetails)
    (extractEmail : String → Option String) (category : String) (min_rating : Rat)
    (nextPage : String → Option GSearchPage) (p : GPlace) (rest : List GPlace)
    (cur : GSearchPage) (biz : Business) (tok : String) (newPage : GSearchPage)
    (hp : googleProcessPlace details extractEmail category min_rating p = some biz)
    (htok : cur.next_page_token = some tok) (hnp : nextPage tok = some newPage) :
    googleLoop details extractEmail category min_rating nextPage (p :: rest) cur
      = biz :: googleLoop details extractEmail category min_rating nextPage rest newPage := by
  simp only [googleLoop, hp, htok, hnp]

theorem googleLoop_cons_tok_fail (details : String → Option GDetails)
    (extractEmail : String → Option String) (category : String) (min_rating : Rat)
    (nextPage : String → Option GSearchPage) (p : GPlace) (rest : List GPlace)
    (cur : GSearchPage) (biz : Business) (tok : String)
    (hp : googleProcessPlace details extractEmail category min_rating p = some biz)
    (htok : cur.next_page_token = some tok) (hnp : nextPage tok = none) :
    googleLoop details extractEmail category min_rating nextPage (p :: rest) cur
      = [biz] := by
  simp only [googleLoop, hp, htok, hnp]

theorem googleLoop_mem (details : String → Option GDetails)
    (extractEmail : String → Option String) (category : String) (min_rating : Rat)
    (nextPage : String → Option GSearchPage) :
    ∀ (places : List GPlace) (cur : GSearchPage) (biz : Business),
      biz ∈ googleLoop details extractEmail category min_rating nextPage places cur →
      ∃ p ∈ places,
        googleProcessPlace details extractEmail category min_rating p = some biz := by
  intro places
  induction places with
  | nil => intro cur biz h; simp [googleLoop] at h
  | cons p rest ih =>
    intro cur biz h
    cases hp : googleProcessPlace details extractEmail category min_rating p with
    | none =>
      rw [googleLoop_cons_none _ _ _ _ _ _ _ _ hp] at h
      obtain ⟨q, hq, hqe⟩ := ih cur biz h
      exact ⟨q, List.mem_cons_of_mem p hq, hqe⟩
    | some b0 =>
      cases htok : cur.next_page_token with
      | none =>
        rw [googleLoop_cons_notok _ _ _ _ _ _ _ _ _ hp htok] at h
        rcases List.mem_cons.1 h with rfl | h
        · exact ⟨p, List.mem_cons_self p rest, hp⟩
        · obtain ⟨q, hq, hqe⟩ := ih cur biz h
          exact ⟨q, List.mem_cons_of_mem p hq, hqe⟩
      | some tok =>
        cases hnp : nextPage tok with
        | some newPage =>
          rw [googleLoop_cons_tok_ok _ _ _ _ _ _ _ _ _ _ _ hp htok hnp] at h
          rcases List.mem_cons.1 h with rfl | h
          · exact ⟨p, List.mem_cons_self p rest, hp⟩
          · obtain ⟨q, hq, hqe⟩ := ih newPage biz h
            exact ⟨q, List.mem_cons_of_mem p hq, hqe⟩
        | none =>
          rw [googleLoop_cons_tok_fail _ _ _ _ _ _ _ _ _ _ hp htok hnp] at h
          rcases List.mem_singleton.1 h with rfl
          exact ⟨p, List.mem_cons_self p rest, hp⟩

theorem googleProcessPlace_rating (details : String → Option GDetails)
    (extractEmail : String → Option String) (category : String) (min_rating : Rat)
    (p : GPlace) (biz : Business)
    (h : googleProcessPlace details extractEmail category min_rating p = some biz) :
    ∀ r : Rat, p.rating = some r → min_rating ≤ r := by
  intro r hr
  by_contra hlt
  push_neg at hlt
  rw [googleProcessPlace, hr] at h
  simp [Option.any, hlt] at h

theorem googleProcessPlace_details_none (details : String → Option GDetails)
    (extractEmail : String → Option String) (category : String) (min_rating : Rat)
    (p : GPlace) (hdet : details p.place_id = none) :
    googleProcessPlace details extractEmail category min_rating p = none := by
  rw [googleProcessPlace, hdet]
  split <;> rfl

theorem googleLoop_drop (details : String → Option GDetails)
    (extractEmail : String → Option String) (category : String) (min_rating : Rat)
    (nextPage : String → Option GSearchPage) (p : GPlace)
    (hp : googleProcessPlace details extractEmail category min_rating p = none) :
    ∀ (l1 l2 : List GPlace) (cur : GSearchPage),
      googleLoop details extractEmail category min_rating nextPage (l1 ++ p :: l2) cur
        = googleLoop details extractEmail category min_rating nextPage (l1 ++ l2) cur := by
  intro l1
  induction l1 with
  | nil =>
    intro l2 cur
    rw [List.nil_append, List.nil_append, googleLoop_cons_none _ _ _ _ _ _ _ _ hp]
  | cons q t ih =>
    intro l2 cur
    rw [List.cons_append, List.cons_append]
    cases hq : googleProcessPlace details extractEmail category min_rating q with
    | none =>
      rw [googleLoop_cons_none _ _ _ _ _ _ _ _ hq, googleLoop_cons_none _ _ _ _ _ _ _ _ hq]
      exact ih l2 cur
    | some b0 =>
      cases htok : cur.next_page_token with
      | none =>
        rw [googleLoop_cons_notok _ _ _ _ _ _ _ _ _ hq htok,
          googleLoop_cons_notok _ _ _ _ _ _ _ _ _ hq htok, ih l2 cur]
      | some tok =>
        cases hnp : nextPage tok with
        | some newPage =>
          rw [googleLoop_cons_tok_ok _ _ _ _ _ _ _ _ _ _ _ hq htok hnp,
            googleLoop_cons_tok_ok _ _ _ _ _ _ _ _ _ _ _ hq htok hnp, ih l2 newPage]
        | none =>
          rw [googleLoop_cons_tok_fail _ _ _ _ _ _ _ _ _ _ hq htok hnp,
            googleLoop_cons_tok_fail _ _ _ _ _ _ _ _ _ _ hq htok hnp]

theorem yelpLoop_cons_none (details : String → Option Unit)
    (extractEmail : String → Option String) (category : String) (min_rating : Rat)
    (nextSearch : Int → Option YSearchPage) (b : YBusiness) (rest : List YBusiness)
    (cur : YSearchPage)
    (hb : yelpProcessBusiness details extractEmail category min_rating b = none) :
    yelpLoop details extractEmail category min_rating nextSearch (b :: rest) cur
      = yelpLoop details extractEmail category min_rating nextSearch rest cur := by
  rw [yelpLoop, hb]

theorem yelpLoop_cons_nopage (details : String → Option Unit)
    (extractEmail : String → Option String) (category : String) (min_rating : Rat)
    (nextSearch : Int → Option YSearchPage) (b : YBusiness) (rest : List YBusiness)
    (cur : YSearchPage) (biz : Business)
    (hb : yelpProcessBusiness details extractEmail category min_rating b = some biz)
    (hcond : ¬(cur.offset + (cur.businesses.length : Int) < cur.total
        ∧ cur.offset + (cur.businesses.length : Int) < 1000)) :
    yelpLoop details extractEmail category min_rating nextSearch (b :: rest) cur
      = biz :: yelpLoop details extractEmail category min_rating nextSearch rest cur := by
  simp only [yelpLoop, hb, if_neg hcond]

theorem yelpLoop_cons_page_ok (details : String → Option Unit)
    (extractEmail : String → Option String) (category : String) (min_rating : Rat)
    (nextSearch : Int → Option YSearchPage) (b : YBusiness) (rest : List YBusiness)
    (cur newPage : YSearchPage) (biz : Business)
    (hb : yelpProcessBusiness details extractEmail category min_rating b = some biz)
    (hcond : cur.offset + (cur.businesses.length : Int) < cur.total
        ∧ cur.offset + (cur.businesses.length : Int) < 1000)
    (hns : nextSearch (cur.offset + (cur.businesses.length : Int)) = some newPage) :
    yelpLoop details extractEmail category min_rating nextSearch (b :: rest) cur
      = biz :: yelpLoop details extractEmail category min_rating nextSearch rest newPage := by
  simp only [yelpLoop, hb, if_pos hcond, hns]

theorem yelpLoop_cons_page_fail (details : String → Option Unit)
    (extractEmail : String → Option String) (category : String) (min_rating : Rat)
    (nextSearch : Int → Option YSearchPage) (b : YBusiness) (rest : List YBusiness)
    (cur : YSearchPage) (biz : Business)
    (hb : yelpProcessBusiness details extractEmail category min_rating b = some biz)
    (hcond : cur.offset + (cur.businesses.length : Int) < cur.total
        ∧ cur.offset + (cur.businesses.length : Int) < 1000)
    (hns : nextSearch (cur.offset + (cur.businesses.length : Int)) = none) :
    yelpLoop details extractEmail category min_rating nextSearch (b :: rest) cur
      = [biz] := by
  simp only [yelpLoop, hb, if_pos hcond, hns]

theorem yelpLoop_mem (details : String → Option Unit)
    (extractEmail : String → Option String) (category : String) (min_rating : Rat)
    (nextSearch : Int → Option YSearchPage) :
    ∀ (bs : List YBusiness) (cur : YSearchPage) (biz : Business),
      biz ∈ yelpLoop details extractEmail category min_rating nextSearch bs cur →
      ∃ b ∈ bs,
        yelpProcessBusiness details extractEmail category min_rating b = some biz := by
  intro bs
  induction bs with
  | nil => intro cur biz h; simp [yelpLoop] at h
  | cons b rest ih =>
    intro cur biz h
    cases hb : yelpProcessBusiness details extractEmail category min_rating b with
    | none =>
      rw [yelpLoop_cons_none _ _ _ _ _ _ _ _ hb] at h
      obtain ⟨q, hq, hqe⟩ := ih cur biz h
      exact ⟨q, List.mem_cons_of_mem b hq, hqe⟩
    | some b0 =>
      by_cases hcond : cur.offset + (cur.businesses.length : Int) < cur.total
          ∧ cur.offset + (cur.businesses.length : Int) < 1000
      · cases hns : nextSearch (cur.offset + (cur.businesses.length : Int)) with
        | some newPage =>
          rw [yelpLoop_cons_page_ok _ _ _ _ _ _ _ _ _ _ hb hcond hns] at h
          rcases List.mem_cons.1 h with rfl | h
          · exact ⟨b, List.mem_cons_self b rest, hb⟩
          · obtain ⟨q, hq, hqe⟩ := ih newPage biz h
            exact ⟨q, List.mem_cons_of_mem b hq, hqe⟩
        | none =>
          rw [yelpLoop_cons_page_fail _ _ _ _ _ _ _ _ _ hb hcond hns] at h
          rcases List.mem_singleton.1 h with rfl
          exact ⟨b, List.mem_cons_self b rest, hb⟩
      · rw [yelpLoop_cons_nopage _ _ _ _ _ _ _ _ _ hb hcond] at h
        rcases List.mem_cons.1 h with rfl | h
        · exact ⟨b, List.mem_cons_self b rest, hb⟩
        · obtain ⟨q, hq, hqe⟩ := ih cur biz h
          exact ⟨q, List.mem_cons_of_mem b hq, hqe⟩

theorem yelpProcessBusiness_rating (details : String → Option Unit)
    (extractEmail : String → Option String) (category : String) (min_rating : Rat)
    (b : YBusiness) (biz : Business)
    (h : yelpProcessBusiness details extractEmail category min_rating b = some biz) :
    min_rating ≤ b.rating.getD 0 := by
  by_contra hlt
  push_neg at hlt
  rw [yelpProcessBusiness, if_pos hlt] at h
  exact Option.noConfusion h

theorem yelpProcessBusiness_details_none (details : String → Option Unit)
    (extractEmail : String → Option String) (category : String) (min_rating : Rat)
    (b : YBusiness) (hdet : details b.id = none) :
    yelpProcessBusiness details extractEmail category min_rating b = none := by
  rw [yelpProcessBusiness]
  by_cases h1 : b.rating.getD 0 < min_rating
  · rw [if_pos h1]
  · rw [if_neg h1]
    by_cases h2 : b.id = ""
    · rw [if_pos h2]
    · rw [if_neg h2, hdet]

theorem yelpLoop_drop (details : String → Option Unit)
    (extractEmail : String → Option String) (category : String) (min_rating : Rat)
    (nextSearch : Int → Option YSearchPage) (b : YBusiness)
    (hb : yelpProcessBusiness details extractEmail category min_rating b = none) :
    ∀ (l1 l2 : List YBusiness) (cur : YSearchPage),
      yelpLoop details extractEmail category min_rating nextSearch (l1 ++ b :: l2) cur
        = yelpLoop details extractEmail category min_rating nextSearch (l1 ++ l2) cur := by
  intro l1
  induction l1 with
  | nil =>
    intro l2 cur
    rw [List.nil_append, List.nil_append, yelpLoop_cons_none _ _ _ _ _ _ _ _ hb]
  | cons q t ih =>
    intro l2 cur
    rw [List.cons_append, List.cons_append]
    cases hq : yelpProcessBusiness details extractEmail category min_rating q with
    | none =>
      rw [yelpLoop_cons_none _ _ _ _ _ _ _ _ hq, yelpLoop_cons_none _ _ _ _ _ _ _ _ hq]
      exact ih l2 cur
    | some b0 =>
      by_cases hcond : cur.offset + (cur.businesses.length : Int) < cur.total
          ∧ cur.offset + (cur.businesses.length : Int) < 1000
      · cases hns : nextSearch (cur.offset + (cur.businesses.length : Int)) with
        | some newPage =>
          rw [yelpLoop_cons_page_ok _ _ _ _ _ _ _ _ _ _ hq hcond hns,
            yelpLoop_cons_page_ok _ _ _ _ _ _ _ _ _ _ hq hcond hns, ih l2 newPage]
        | none =>
          rw [yelpLoop_cons_page_fail _ _ _ _ _ _ _ _ _ hq hcond hns,
            yelpLoop_cons_page_fail _ _ _ _ _ _ _ _ _ hq hcond hns]
      · rw [yelpLoop_cons_nopage _ _ _ _ _ _ _ _ _ hq hcond,
          yelpLoop_cons_nopage _ _ _ _ _ _ _ _ _ hq hcond, ih l2 cur]

theorem osmProcessElement_isSome (loc : OsmLocation)
    (extractEmail : String → Option String) (category : String) (e : OsmElement) :
    (osmProcessElement loc extractEmail category e).isSome
      ↔ (e.type = "node" ∧ (tagLookup e.tags "name").isSome) := by
  rw [osmProcessElement]
  by_cases ht : e.type ≠ "node"
  · rw [if_pos ht]
    simp [fun h => ht h]
  · push_neg at ht
    rw [if_neg (by simpa using ht)]
    cases hn : tagLookup e.tags "name" with
    | none => simp [ht, hn]
    | some nm => simp [ht, hn]

/-! ### Claims C7, C8, C9, C10 -/

/-- Claim C9: the metric providers request `radius_km * 1000` meters, and
the Yelp request radius equals `min(radius_km * 1000, 40000)`; in
particular 5 km maps to 5000 meters and a 40 km Yelp request is sent as
exactly 40000 meters. -/
theorem radius_conversion :
    (∀ radius_km : Int, googleRadiusMeters radius_km = radius_km * 1000) ∧
    (∀ radius_km : Int, yelpRadiusMeters radius_km = min (radius_km * 1000) 40000) ∧
    googleRadiusMeters 5 = 5000 ∧ yelpRadiusMeters 5 = 5000 ∧
    yelpRadiusMeters 40 = 40000 := by
  refine ⟨fun _ => rfl, fun km => ?_, rfl, by decide, by decide⟩
  rw [yelpRadiusMeters]
  split_ifs with h <;> omega

/-- Claim C10: a Google nearby-search candidate that carries no rating
field is never skipped by the minimum-rating filter — for every
`min_rating` it proceeds straight to the details call, and when the
details call succeeds its record appears in the search result. -/
theorem unrated_candidate_passes :
    ∀ (details : String → Option GDetails) (extractEmail : String → Option String)
      (nextPage : String → Option GSearchPage) (category : String) (loc : GLocation)
      (radius_km : Int) (min_rating : Rat) (p : GPlace), p.rating = none →
      (googleProcessPlace details extractEmail category min_rating p
        = (match details p.place_id with
           | none => none
           | some d => some (googleBuildBusiness category extractEmail d))) ∧
      (∀ d : GDetails, details p.place_id = some d →
        googleSearchBusinesses (some loc)
            (fun _ _ _ => some { results := [p], next_page_token := none })
            details extractEmail nextPage category radius_km min_rating
          = [googleBuildBusiness category extractEmail d]) := by
  intro details extractEmail nextPage category loc radius_km min_rating p hrating
  have hproc : googleProcessPlace details extractEmail category min_rating p
      = (match details p.place_id with
         | none => none
         | some d => some (googleBuildBusiness category extractEmail d)) := by
    rw [googleProcessPlace, hrating]
    rfl
  refine ⟨hproc, fun d hd => ?_⟩
  have hp : googleProcessPlace details extractEmail category min_rating p
      = some (googleBuildBusiness category extractEmail d) := by
    rw [hproc, hd]
  simp only [googleSearchBusinesses]
  rw [googleLoop_cons_notok _ _ _ _ _ _ _ _ _ hp rfl]
  rfl

/-- Concrete geocoded location for witnesses. -/
def gLocRome : GLocation := { lat := "41.9", lng := "12.49" }

/-- Concrete nearby-search candidate carrying a rating. -/
def gPlaceBella : GPlace := { place_id := "p1", name := "Trattoria Bella", rating := some 4 }

/-- Concrete nearby-search candidate carrying no rating field. -/
def gPlaceNoRating : GPlace := { place_id := "p2", name := "Osteria Vecchia", rating := none }

/-- Concrete details payload for witnesses. -/
def gDetailsBella : GDetails :=
  { name := "Trattoria Bella", formatted_address := "Via Roma 5",
    formatted_phone_number := "+39 06 555", website := "",
    rating := "4.4", user_ratings_total := "120", lat := "41.9", lng := "12.5",
    address_components := [{ long_name := "Rome", types := ["locality", "political"] },
                           { long_name := "Italy", types := ["country", "political"] }] }

/-- Concrete single-candidate nearby-search page with no pagination token. -/
def gPageBella : GSearchPage := { results := [gPlaceBella], next_page_token := none }

/-- Concrete details response table for witnesses. -/
def gDetailsFn : String → Option GDetails :=
  fun pid => if pid = "p1" then some gDetailsBella else none

/-- Claim C10 witness: the unrated candidate `gPlaceNoRating` passes the
rating filter for a concrete threshold and, when its details call
succeeds, its record is the search result. -/
theorem unrated_candidate_passes_witness :
    (googleProcessPlace (fun _ => some gDetailsBella) (fun _ => none) "restaurant" 3
        gPlaceNoRating
      = (match (fun (_ : String) => some gDetailsBella) gPlaceNoRating.place_id with
         | none => none
         | some d => some (googleBuildBusiness "restaurant" (fun _ => none) d))) ∧
    (∀ d : GDetails, (fun (_ : String) => some gDetailsBella) gPlaceNoRating.place_id = some d →
      googleSearchBusinesses (some gLocRome)
          (fun _ _ _ => some { results := [gPlaceNoRating], next_page_token := none })
          (fun _ => some gDetailsBella) (fun _ => none) (fun _ => none) "restaurant" 5 3
        = [googleBuildBusiness "restaurant" (fun _ => none) d]) :=
  unrated_candidate_passes (fun _ => some gDetailsBella) (fun _ => none) (fun _ => none)
    "restaurant" gLocRome 5 3 gPlaceNoRating (by decide)

/-- Claim C7: no candidate whose rating is strictly below `min_rating`
appears in a Google or Yelp search result (every output record stems from
a candidate whose rating, when present, meets the threshold — for Yelp a
missing rating defaults to 0), while the OSM provider applies no rating
filter at all: its output is independent of `min_rating`, and an element
yields a record iff it is a node carrying a name tag. -/
theorem rating_filter_semantics :
    (∀ (geocode : Option GLocation) (nearby : GLocation → String → Int → Option GSearchPage)
        (details : String → Option GDetails) (extractEmail : String → Option String)
        (nextPage : String → Option GSearchPage) (category : String) (radius_km : Int)
        (min_rating : Rat) (biz : Business),
      biz ∈ googleSearchBusinesses geocode nearby details extractEmail nextPage
              category radius_km min_rating →
      ∃ loc page p, geocode = some loc
        ∧ nearby loc (googleType category) (googleRadiusMeters radius_km) = some page
        ∧ p ∈ page.results
        ∧ googleProcessPlace details extractEmail category min_rating p = some biz
        ∧ ∀ r : Rat, p.rating = some r → min_rating ≤ r) ∧
    (∀ (searchResp : String → Int → Option YSearchPage) (details : String → Option Unit)
        (extractEmail : String → Option String) (nextSearch : Int → Option YSearchPage)
        (category : String) (radius_km : Int) (min_rating : Rat) (biz : Business),
      biz ∈ yelpSearchBusinesses searchResp details extractEmail nextSearch
              category radius_km min_rating →
      ∃ page b, searchResp (yelpCategoryTag category) (yelpRadiusMeters radius_km) = some page
        ∧ b ∈ page.businesses
        ∧ yelpProcessBusiness details extractEmail category min_rating b = some biz
        ∧ min_rating ≤ b.rating.getD 0) ∧
    (∀ (locationResult : Option OsmLocation) (overpass : Option (List OsmElement))
        (extractEmail : String → Option String) (category : String) (radius_km : Int)
        (mr mr' : Rat),
      osmSearchBusinesses locationResult overpass extractEmail category radius_km mr
        = osmSearchBusinesses locationResult overpass extractEmail category radius_km mr') ∧
    (∀ (loc : OsmLocation) (extractEmail : String → Option String) (category : String)
        (e : OsmElement),
      (osmProcessElement loc extractEmail category e).isSome
        ↔ (e.type = "node" ∧ (tagLookup e.tags "name").isSome)) := by
  refine ⟨?_, ?_, ?_, ?_⟩
  · intro geocode nearby details extractEmail nextPage category radius_km min_rating biz h
    cases geocode with
    | none => simp [googleSearchBusinesses] at h
    | some loc =>
      cases hn : nearby loc (googleType category) (googleRadiusMeters radius_km) with
      | none => simp [googleSearchBusinesses, hn] at h
      | some page =>
        simp only [googleSearchBusinesses, hn] at h
        obtain ⟨p, hp, hpe⟩ := googleLoop_mem _ _ _ _ _ _ _ _ h
        exact ⟨loc, page, p, rfl, hn, hp, hpe,
          googleProcessPlace_rating _ _ _ _ _ _ hpe⟩
  · intro searchResp details extractEmail nextSearch category radius_km min_rating biz h
    cases hs : searchResp (yelpCategoryTag category) (yelpRadiusMeters radius_km) with
    | none => simp [yelpSearchBusinesses, hs] at h
    | some page =>
      simp only [yelpSearchBusinesses, hs] at h
      obtain ⟨b, hb, hbe⟩ := yelpLoop_mem _ _ _ _ _ _ _ _ h
      exact ⟨page, b, rfl, hb, hbe, yelpProcessBusiness_rating _ _ _ _ _ _ hbe⟩
  · intro locationResult overpass extractEmail category radius_km mr mr'
    rfl
  · intro loc extractEmail category e
    exact osmProcessElement_isSome loc extractEmail category e

/-- Email discoverer that finds nothing, used by witnesses. -/
def noEmailFn : String → Option String := fun _ => none

/-- Nearby-search response table for witnesses. -/
def gNearbyFn : GLocation → String → Int → Option GSearchPage := fun _ _ _ => some gPageBella

/-- Pagination table that always fails, used by witnesses. -/
def gNextPageFn : String → Option GSearchPage := fun _ => none

/-- Record built from `gDetailsBella`, used by witnesses. -/
def gBizBella : Business := googleBuildBusiness "restaurant" noEmailFn gDetailsBella

/-- Concrete Yelp search candidate for witnesses. -/
def yBizNight : YBusiness :=
  { id := "y1", name := "Club Notte", rating := some 4, phone := "+39 02 777",
    url := "", review_count := some 80, city := "Milan", country := "IT",
    display_address := ["Corso Como 10", "Milano"], latitude := "45.48", longitude := "9.19" }

/-- Concrete single-candidate Yelp search page. -/
def yPageNight : YSearchPage := { businesses := [yBizNight], offset := 0, total := 1 }

/-- Yelp search response table for witnesses. -/
def ySearchFn : String → Int → Option YSearchPage := fun _ _ => some yPageNight

/-- Yelp details table for witnesses. -/
def yDetailsFn : String → Option Unit := fun i => if i = "y1" then some () else none

/-- Yelp pagination table that always fails, used by witnesses. -/
def yNextFn : Int → Option YSearchPage := fun _ => none

/-- Record built from `yBizNight`, used by witnesses. -/
def yBizBuilt : Business := yelpBuildBusiness "nightclub" noEmailFn yBizNight

/-- Concrete resolved OSM location for witnesses. -/
def osmLocRome : OsmLocation := { display_name := "Rome, Metropolitan City of Rome, Italy" }

/-- Concrete named OSM node element for witnesses. -/
def osmNodeCafe : OsmElement :=
  { type := "node",
    tags := [("name", "Antico Caffe"), ("amenity", "cafe"), ("phone", "+39 06 111")],
    lat := "41.9", lon := "12.47" }

/-- Claim C7 witness: the rating-filter statement evaluated on concrete
responses for each of the three providers. -/
theorem rating_filter_semantics_witness :
    (∃ loc page p, (some gLocRome : Option GLocation) = some loc
      ∧ gNearbyFn loc (googleType "restaurant") (googleRadiusMeters 5) = some page
      ∧ p ∈ page.results
      ∧ googleProcessPlace gDetailsFn noEmailFn "restaurant" 3 p = some gBizBella
      ∧ ∀ r : Rat, p.rating = some r → (3 : Rat) ≤ r) ∧
    (∃ page b, ySearchFn (yelpCategoryTag "nightclub") (yelpRadiusMeters 5) = some page
      ∧ b ∈ page.businesses
      ∧ yelpProcessBusiness yDetailsFn noEmailFn "nightclub" 3 b = some yBizBuilt
      ∧ (3 : Rat) ≤ b.rating.getD 0) ∧
    (osmSearchBusinesses (some osmLocRome) (some [osmNodeCafe]) noEmailFn "cafe" 5 1
      = osmSearchBusinesses (some osmLocRome) (some [osmNodeCafe]) noEmailFn "cafe" 5 4) ∧
    ((osmProcessElement osmLocRome noEmailFn "cafe" osmNodeCafe).isSome
      ↔ (osmNodeCafe.type = "node" ∧ (tagLookup osmNodeCafe.tags "name").isSome)) :=
  ⟨rating_filter_semantics.1 (some gLocRome) gNearbyFn gDetailsFn noEmailFn gNextPageFn
      "restaurant" 5 3 gBizBella (by decide),
   rating_filter_semantics.2.1 ySearchFn yDetailsFn noEmailFn yNextFn
      "nightclub" 5 3 yBizBuilt (by decide),
   rating_filter_semantics.2.2.1 (some osmLocRome) (some [osmNodeCafe]) noEmailFn "cafe" 5 1 4,
   rating_filter_semantics.2.2.2 osmLocRome noEmailFn "cafe" osmNodeCafe⟩

/-- Claim C8: transport-level failure of a top-level call (geocode, the
initial nearby/search, the OSM location or Overpass query) makes the
provider's search return the empty list, while failure of a single
candidate's details call only drops that candidate — the loop's result on
a list containing the failing candidate equals its result with that
candidate removed. -/
theorem provider_error_semantics :
    (∀ (nearby : GLocation → String → Int → Option GSearchPage)
        (details : String → Option GDetails) (extractEmail : String → Option String)
        (nextPage : String → Option GSearchPage) (category : String)
        (radius_km : Int) (min_rating : Rat),
      googleSearchBusinesses none nearby details extractEmail nextPage
        category radius_km min_rating = []) ∧
    (∀ (loc : GLocation) (nearby : GLocation → String → Int → Option GSearchPage)
        (details : String → Option GDetails) (extractEmail : String → Option String)
        (nextPage : String → Option GSearchPage) (category : String)
        (radius_km : Int) (min_rating : Rat),
      nearby loc (googleType category) (googleRadiusMeters radius_km) = none →
      googleSearchBusinesses (some loc) nearby details extractEmail nextPage
        category radius_km min_rating = []) ∧
    (∀ (details : String → Option GDetails) (extractEmail : String → Option String)
        (category : String) (min_rating : Rat) (nextPage : String → Option GSearchPage)
        (p : GPlace), details p.place_id = none →
      ∀ (l1 l2 : List GPlace) (cur : GSearchPage),
        googleLoop details extractEmail category min_rating nextPage (l1 ++ p :: l2) cur
          = googleLoop details extractEmail category min_rating nextPage (l1 ++ l2) cur) ∧
    (∀ (searchResp : String → Int → Option YSearchPage) (details : String → Option Unit)
        (extractEmail : String → Option String) (nextSearch : Int → Option YSearchPage)
        (category : String) (radius_km : Int) (min_rating : Rat),
      searchResp (yelpCategoryTag category) (yelpRadiusMeters radius_km) = none →
      yelpSearchBusinesses searchResp details extractEmail nextSearch
        category radius_km min_rating = []) ∧
    (∀ (details : String → Option Unit) (extractEmail : String → Option String)
        (category : String) (min_rating : Rat) (nextSearch : Int → Option YSearchPage)
        (b : YBusiness), details b.id = none →
      ∀ (l1 l2 : List YBusiness) (cur : YSearchPage),
        yelpLoop details extractEmail category min_rating nextSearch (l1 ++ b :: l2) cur
          = yelpLoop details extractEmail category min_rating nextSearch (l1 ++ l2) cur) ∧
    (∀ (overpass : Option (List OsmElement)) (extractEmail : String → Option String)
        (category : String) (radius_km : Int) (min_rating : Rat),
      osmSearchBusinesses none overpass extractEmail category radius_km min_rating = []) ∧
    (∀ (loc : OsmLocation) (extractEmail : String → Option String) (category : String)
        (radius_km : Int) (min_rating : Rat),
      osmSearchBusinesses (some loc) none extractEmail category radius_km min_rating = []) := by
  refine ⟨fun _ _ _ _ _ _ _ => rfl, ?_, ?_, ?_, ?_, fun _ _ _ _ _ => rfl,
    fun _ _ _ _ _ => rfl⟩
  · intro loc nearby details extractEmail nextPage category radius_km min_rating hn
    simp only [googleSearchBusinesses, hn]
  · intro details extractEmail category min_rating nextPage p hdet l1 l2 cur
    exact googleLoop_drop details extractEmail category min_rating nextPage p
      (googleProcessPlace_details_none details extractEmail category min_rating p hdet)
      l1 l2 cur
  · intro searchResp details extractEmail nextSearch category radius_km min_rating hs
    simp only [yelpSearchBusinesses, hs]
  · intro details extractEmail category min_rating nextSearch b hdet l1 l2 cur
    exact yelpLoop_drop details extractEmail category min_rating nextSearch b
      (yelpProcessBusiness_details_none details extractEmail category min_rating b hdet)
      l1 l2 cur

/-- Claim C8 witness: the error-semantics statement evaluated on concrete
failing responses — each hard-stop case returns the empty list, and a
failing details call for one concrete candidate drops exactly that
candidate. -/
theorem provider_error_semantics_witness :
    googleSearchBusinesses none gNearbyFn gDetailsFn noEmailFn gNextPageFn
        "restaurant" 5 3 = [] ∧
    googleSearchBusinesses (some gLocRome) (fun _ _ _ => none) gDetailsFn noEmailFn
        gNextPageFn "restaurant" 5 3 = [] ∧
    googleLoop gDetailsFn noEmailFn "restaurant" 3 gNextPageFn
        ([gPlaceBella] ++ gPlaceNoRating :: []) gPageBella
      = googleLoop gDetailsFn noEmailFn "restaurant" 3 gNextPageFn
        ([gPlaceBella] ++ []) gPageBella ∧
    yelpSearchBusinesses (fun _ _ => none) yDetailsFn noEmailFn yNextFn
        "nightclub" 5 3 = [] ∧
    yelpLoop yDetailsFn noEmailFn "nightclub" 3 yNextFn
        ([] ++ { yBizNight with id := "y9" } :: [yBizNight]) yPageNight
      = yelpLoop yDetailsFn noEmailFn "nightclub" 3 yNextFn
        ([] ++ [yBizNight]) yPageNight ∧
    osmSearchBusinesses none (some [osmNodeCafe]) noEmailFn "cafe" 5 3 = [] ∧
    osmSearchBusinesses (some osmLocRome) none noEmailFn "cafe" 5 3 = [] :=
  ⟨provider_error_semantics.1 gNearbyFn gDetailsFn noEmailFn gNextPageFn "restaurant" 5 3,
   provider_error_semantics.2.1 gLocRome (fun _ _ _ => none) gDetailsFn noEmailFn
     gNextPageFn "restaurant" 5 3 rfl,
   provider_error_semantics.2.2.1 gDetailsFn noEmailFn "restaurant" 3 gNextPageFn
     gPlaceNoRating (by decide) [gPlaceBella] [] gPageBella,
   provider_error_semantics.2.2.2.1 (fun _ _ => none) yDetailsFn noEmailFn yNextFn
     "nightclub" 5 3 rfl,
   provider_error_semantics.2.2.2.2.1 yDetailsFn noEmailFn "nightclub" 3 yNextFn
     { yBizNight with id := "y9" } (by decide) [] [yBizNight] yPageNight,
   provider_error_semantics.2.2.2.2.2.1 (some [osmNodeCafe]) noEmailFn "cafe" 5 3,
   provider_error_semantics.2.2.2.2.2.2 osmLocRome noEmailFn "cafe" 5 3⟩
